import Mathlib

/-!
Shallow embedding of `scholar_scraper.py` (s-index repository).

The program scrapes a scholar profile page, extracts citation metrics and a
paginated publication list, and renders three derived views (ranking,
undercitation, summary).  We embed the pure data transformations directly;
HTML pages and rows are modelled abstractly by the fields the code reads,
and the fallible dynamic behaviour (error dicts, raised exceptions) is made
explicit with sum types and a dedicated fault constructor.
-/

/-! ### Python string primitives used by the code -/

/-- Model of Python `str.isdigit()` restricted to ASCII: true iff the string
is non-empty and every character is a decimal digit.  (Python additionally
accepts some non-ASCII digit-like characters; those are not modelled.) -/
def pyIsDigitStr (s : String) : Bool :=
  !s.data.isEmpty && s.data.all Char.isDigit

/-- Decimal value of a digit string, as computed by Python `int` on a string
that `isdigit` accepts. -/
def strToNat (s : String) : Nat :=
  s.data.foldl (fun acc c => 10 * acc + (c.toNat - 48)) 0

/-- Value of a non-empty all-digit character sequence, `none` otherwise. -/
def digitsVal (cs : List Char) : Option Nat :=
  if !cs.isEmpty && cs.all Char.isDigit then
    some (cs.foldl (fun acc c => 10 * acc + (c.toNat - 48)) 0)
  else none

/-- Model of Python `int(s)` on a string: surrounding whitespace is ignored,
an optional single sign is allowed, and the remainder must be a non-empty
digit sequence; `none` models `ValueError`.  (Underscore digit grouping and
non-ASCII digits, which CPython also accepts, are not modelled.) -/
def pyInt (s : String) : Option Int :=
  match ((s.data.dropWhile Char.isWhitespace).reverse.dropWhile
      Char.isWhitespace).reverse with
  | '-' :: rest => (digitsVal rest).map (fun n => -(n : Int))
  | '+' :: rest => (digitsVal rest).map (fun n => (n : Int))
  | cs => (digitsVal cs).map (fun n => (n : Int))

/-! ### Data model -/

/-- A publication record as built by `get_publications`: the five extracted
fields, plus the `age` annotation that `find_undercited_publications` adds
(absent, i.e. `none`, until that analysis runs). -/
structure Pub where
  title : String
  authors : String
  venue : String
  year : String
  citations : Int
  age : Option Int
deriving DecidableEq, Repr

/-- Result of `get_publications`: either a list of publications or the
`{"error": msg}` dictionary the Python code returns on failure. -/
inductive PubsResult where
  | ok : List Pub → PubsResult
  | error : String → PubsResult
deriving DecidableEq, Repr

/-- One publication table row (`tr.gsc_a_tr`), abstracted to the texts the
extractor reads: the title link text (`a.gsc_a_at`), the list of grey text
blocks (`div.gs_gray`, in document order), the year span text
(`span.gsc_a_h`), and the citation link text (`a.gsc_a_ac`).  A `none`
models an absent (or falsy, i.e. childless) element. -/
structure Row where
  titleText : Option String
  grayTexts : List String
  yearText : Option String
  citationsText : Option String
deriving DecidableEq, Repr

/-- Per-row field extraction from the body of the pagination loop of
`get_publications` (source lines 101-144): each field independently falls
back to `"N/A"` (or `0` for citations) when its element is missing, the
year also when its text is empty, and the citation text is parsed with
`int`, defaulting to `0` on empty text or `ValueError`. -/
def extractPub (row : Row) : Pub :=
  { title := row.titleText.getD "N/A"
    authors := row.grayTexts.headD "N/A"
    venue := (row.grayTexts[1]?).getD "N/A"
    year :=
      match row.yearText with
      | some t => if t = "" then "N/A" else t
      | none => "N/A"
    citations :=
      match row.citationsText with
      | some t => if t = "" then 0 else (pyInt t).getD 0
      | none => 0
    age := none }

/-! ### Pagination driver (`get_publications`, lines 82-152) -/

/-- Body of the `while True` pagination loop, with the page fetch modelled
as a function from the start offset to that page's rows and an explicit
fuel bound standing in for the unbounded loop (`none` = fuel exhausted,
i.e. the loop has not yet terminated).  Faithful to the source: fetch the
page at `start`; stop on an empty page; extract every row; stop after a
page of fewer than 100 rows; otherwise advance `start` by the page size
100 and continue.  The returned number counts the fetch calls made. -/
def scrapeLoop (fetchRows : Nat → List Row) : Nat → Nat → Option (List Pub × Nat)
  | 0, _ => none
  | fuel + 1, start =>
    let rows := fetchRows start
    if rows = [] then some ([], 1)
    else
      let pagePubs := rows.map extractPub
      if rows.length < 100 then some (pagePubs, 1)
      else
        match scrapeLoop fetchRows fuel (start + 100) with
        | none => none
        | some (rest, calls) => some (pagePubs ++ rest, calls + 1)

/-- The pagination driver `get_publications`, starting at offset 0. -/
def get_publications (fetchRows : Nat → List Row) (fuel : Nat) :
    Option (List Pub × Nat) :=
  scrapeLoop fetchRows fuel 0

/-! ### Undercitation analysis (`find_undercited_publications`, lines 187-219) -/

/-- Embedding of `find_undercited_publications`: an error dict yields `[]`;
otherwise keep, in order, every publication whose year is a digit string
(the explicit `== 'N/A'` test is subsumed, since `"N/A"` is not a digit
string, but is modelled as written), whose age `current_year - year` is
strictly positive, and whose citations are strictly below that age,
annotating each kept record with its age. -/
def find_undercited_publications (publications : PubsResult) (current_year : Int) :
    List Pub :=
  match publications with
  | .error _ => []
  | .ok pubs =>
    pubs.filterMap (fun pub =>
      if pub.year = "N/A" ∨ pyIsDigitStr pub.year = false then none
      else
        let age : Int := current_year - (strToNat pub.year : Int)
        if 0 < age ∧ pub.citations < age then some { pub with age := some age }
        else none)

/-! ### Rendering (`print_publications_sorted`, `print_undercited_publications`) -/

/-- Comparator of the ranking sort: Python
`sorted(key = citations, reverse = True)` is a stable descending sort,
i.e. a stable sort under this total relation. -/
def citationsDesc (a b : Pub) : Bool := decide (b.citations ≤ a.citations)

/-- The ordering built at source line 172: stable sort by citations,
descending. -/
def sortedByCitations (pubs : List Pub) : List Pub :=
  pubs.mergeSort citationsDesc

/-- Deficit key of the undercitation sort (source line 238): `age -
citations`.  The Python code indexes `x['age']` directly; it is only ever
called on records annotated by `find_undercited_publications`, so the
`getD 0` default is never exercised on the program's own data. -/
def deficit (p : Pub) : Int := p.age.getD 0 - p.citations

/-- Comparator of the undercitation sort: stable descending by deficit. -/
def deficitDesc (a b : Pub) : Bool := decide (deficit b ≤ deficit a)

/-- The ordering built at source lines 237-239. -/
def sortedByDeficit (l : List Pub) : List Pub :=
  l.mergeSort deficitDesc

/-- What a rendering function does with its argument: print a one-line
error diagnostic, list a derived ordering of publications, print the
"none found" message, or raise a `TypeError` (modelled abstractly). -/
inductive Rendered where
  | diagnostic : String → Rendered
  | listing : List Pub → Rendered
  | noneFound : Rendered
  | typeFault : Rendered
deriving DecidableEq, Repr

/-- Embedding of `print_publications_sorted` (lines 160-184): an error dict
is detected (`isinstance(..., dict) and "error" in ...`) and reported as a
one-line diagnostic; otherwise the citation-sorted listing is printed. -/
def print_publications_sorted (publications : PubsResult) : Rendered :=
  match publications with
  | .error msg => .diagnostic ("Error: " ++ msg)
  | .ok pubs => .listing (sortedByCitations pubs)

/-- Embedding of `print_undercited_publications` (lines 222-252).  The only
guard is the falsiness test `if not undercited_pubs`: an empty list prints
the "none found" message, a non-empty list is sorted and listed.  An error
dict is NOT detected: being a non-empty dict it is truthy, so control
reaches `sorted(...)`, which iterates the dict's keys (strings) and applies
the key function `x['age'] - x['citations']` to a string, raising
`TypeError` — modelled by `Rendered.typeFault`. -/
def print_undercited_publications (undercited_pubs : PubsResult) : Rendered :=
  match undercited_pubs with
  | .error _ => .typeFault
  | .ok pubs => if pubs = [] then .noneFound else .listing (sortedByDeficit pubs)

/-! ### Metrics extractor (`get_h_index`, lines 5-53) -/

/-- The six positional metric fields (kept as raw text) plus the optional
researcher name. -/
structure ProfileMetrics where
  citations_all : String
  citations_recent : String
  h_index_all : String
  h_index_recent : String
  i10_index_all : String
  i10_index_recent : String
  name : Option String
deriving DecidableEq, Repr

/-- Result of `get_h_index`: metrics or an error dict. -/
inductive MetricsResult where
  | ok : ProfileMetrics → MetricsResult
  | error : String → MetricsResult
deriving DecidableEq, Repr

/-- A profile page, abstracted to what `get_h_index` reads: whether the
statistics table `#gsc_rsb_st` is present, the `td.gsc_rsb_std` cells of
the whole document in document order (each cell text paired with a flag
telling whether the cell lies inside the statistics table), and the
optional `#gsc_prf_in` name text. -/
structure ProfilePage where
  hasMetricsTable : Bool
  stdCells : List (String × Bool)
  profileName : Option String
deriving DecidableEq, Repr

/-- All `td.gsc_rsb_std` cell texts of the document — what the code's
`soup.find_all` collects. -/
def allStdCells (p : ProfilePage) : List String :=
  p.stdCells.map Prod.fst

/-- The `td.gsc_rsb_std` cell texts lying inside the statistics table —
what the spec describes (`metrics_table.find_all` would collect these). -/
def tableStdCells (p : ProfilePage) : List String :=
  (p.stdCells.filter (fun c => c.2)).map Prod.fst

/-- Embedding of `get_h_index` (lines 25-48): fail if the statistics table
is absent; then collect the numeric-value cells of the WHOLE document
(`soup.find_all`, line 30, is not restricted to the table); fail reporting
the count when fewer than 6 are found; otherwise assign the first six
positionally, and attach the name when present. -/
def get_h_index (page : ProfilePage) : MetricsResult :=
  if !page.hasMetricsTable then .error "Could not find metrics table on the page"
  else
    match allStdCells page with
    | a :: b :: c :: d :: e :: f :: _ =>
      .ok { citations_all := a, citations_recent := b, h_index_all := c,
            h_index_recent := d, i10_index_all := e, i10_index_recent := f,
            name := page.profileName }
    | cells => .error ("Expected 6 metric values, found " ++ toString cells.length)

/-- Recognizer for the error variant of a metrics result. -/
def isErrorM : MetricsResult → Bool
  | .error _ => true
  | .ok _ => false

/-- Recognizer for the diagnostic variant of a rendering outcome. -/
def isDiagnostic : Rendered → Bool
  | .diagnostic _ => true
  | _ => false

/-! ### Summary statistics (main block, lines 291-302) -/

/-- Sum of citation counts (line 292). -/
def totalCitations (pubs : List Pub) : Int :=
  (pubs.map (fun p => p.citations)).sum

/-- Average citations (line 293): `total / len(publications) if publications
else 0`.  Python divides with `/` (true division); we model the exact
rational value. -/
def avgCitations (pubs : List Pub) : Rat :=
  if pubs = [] then 0 else (totalCitations pubs : Rat) / (pubs.length : Rat)

/-- The "Most Cited Publication" figure (line 301): the citation count of
`publications[0]`, i.e. of the first element in arrival order. -/
def mostCitedFigure (pubs : List Pub) : Option Int :=
  pubs.head?.map (fun p => p.citations)

/-- The true maximum citation count over a collection, for comparison. -/
def maxCitations (pubs : List Pub) : Option Int :=
  (pubs.map (fun p => p.citations)).max?

/-! ### Concrete publications used by the spec's worked example and witnesses -/

/-- First example publication of the spec: year "2020", 2 citations. -/
def exPub1 : Pub := ⟨"P1", "A1", "V1", "2020", 2, none⟩

/-- Second example publication of the spec: year "2023", 1 citation. -/
def exPub2 : Pub := ⟨"P2", "A2", "V2", "2023", 1, none⟩

/-- Third example publication of the spec: year "N/A", 0 citations. -/
def exPub3 : Pub := ⟨"P3", "A3", "V3", "N/A", 0, none⟩

/-- The first example publication annotated with its age 5. -/
def exPub1Aged : Pub := ⟨"P1", "A1", "V1", "2020", 2, some 5⟩

/-- The second example publication annotated with its age 2. -/
def exPub2Aged : Pub := ⟨"P2", "A2", "V2", "2023", 1, some 2⟩

/-! ### Comparator facts -/

/-- The deficit comparator is transitive. -/
theorem deficitDesc_trans : ∀ (a b c : Pub),
    deficitDesc a b → deficitDesc b c → deficitDesc a c := by
  intro a b c hab hbc
  simp only [deficitDesc, decide_eq_true_eq] at *
  omega

/-- The deficit comparator is total. -/
theorem deficitDesc_total : ∀ (a b : Pub), deficitDesc a b || deficitDesc b a := by
  intro a b
  simp only [deficitDesc, Bool.or_eq_true, decide_eq_true_eq]
  omega

/-- The citation comparator is transitive. -/
theorem citationsDesc_trans : ∀ (a b c : Pub),
    citationsDesc a b → citationsDesc b c → citationsDesc a c := by
  intro a b c hab hbc
  simp only [citationsDesc, decide_eq_true_eq] at *
  omega

/-- The citation comparator is total. -/
theorem citationsDesc_total : ∀ (a b : Pub), citationsDesc a b || citationsDesc b a := by
  intro a b
  simp only [citationsDesc, Bool.or_eq_true, decide_eq_true_eq]
  omega

/-- C1: for every publication collection and fixed current year, the
undercitation analysis selects exactly the publications with a strictly
numeric year, strictly positive age `current_year - year`, and citations
strictly below that age: every output entry satisfies all three conditions,
and every input publication satisfying them appears in the output (with its
age attached). -/
theorem undercitation_selection_exact (pubs : List Pub) (cy : Int) :
    (∀ q ∈ find_undercited_publications (.ok pubs) cy,
      pyIsDigitStr q.year = true ∧ 0 < cy - (strToNat q.year : Int) ∧
        q.citations < cy - (strToNat q.year : Int)) ∧
    (∀ p ∈ pubs, pyIsDigitStr p.year = true →
      0 < cy - (strToNat p.year : Int) →
      p.citations < cy - (strToNat p.year : Int) →
      { p with age := some (cy - (strToNat p.year : Int)) } ∈
        find_undercited_publications (.ok pubs) cy) := by
  constructor
  · intro q hq
    simp only [find_undercited_publications, List.mem_filterMap] at hq
    obtain ⟨p, hp, he⟩ := hq
    by_cases h1 : p.year = "N/A" ∨ pyIsDigitStr p.year = false
    · simp [h1] at he
    · rw [if_neg h1] at he
      by_cases h2 : 0 < cy - (strToNat p.year : Int) ∧
          p.citations < cy - (strToNat p.year : Int)
      · rw [if_pos h2] at he
        obtain rfl := Option.some.inj he
        push_neg at h1
        have hd : pyIsDigitStr p.year = true :=
          eq_true_of_ne_false h1.2
        exact ⟨hd, h2.1, h2.2⟩
      · rw [if_neg h2] at he
        exact absurd he (by simp)
  · intro p hp h1 h2 h3
    simp only [find_undercited_publications, List.mem_filterMap]
    refine ⟨p, hp, ?_⟩
    have hna : ¬ (p.year = "N/A" ∨ pyIsDigitStr p.year = false) := by
      rintro (h | h)
      · rw [h] at h1
        exact absurd h1 (by decide)
      · rw [h1] at h
        cases h
    rw [if_neg hna, if_pos ⟨h2, h3⟩]

/-- C1 witness: the year-2020 publication with 2 citations is selected at
current year 2025 and carries age 5. -/
theorem undercitation_selection_exact_witness :
    ({ exPub1 with age := some ((2025 : Int) - (strToNat exPub1.year : Int)) } : Pub) ∈
      find_undercited_publications (.ok [exPub1]) 2025 :=
  (undercitation_selection_exact [exPub1] 2025).2 exPub1 (by simp)
    (by decide) (by decide) (by decide)

/-- C2: the rendered undercitation listing is the stable sort of its input
by descending deficit `age - citations` (non-increasing deficits,
permutation of the input, ties in original order), and on the spec's worked
example (years "2020"/"2023"/"N/A" with 2/1/0 citations at current year
2025) the pipeline keeps the first two publications, renders the deficit-3
entry before the deficit-1 entry, and excludes the third. -/
theorem undercitation_render_order (l : List Pub)
    (_hage : ∀ p ∈ l, (p.age).isSome = true) :
    (sortedByDeficit l).Pairwise (fun a b => deficit b ≤ deficit a) ∧
    (sortedByDeficit l).Perm l ∧
    (∀ a b : Pub, deficit a = deficit b → [a, b].Sublist l →
      [a, b].Sublist (sortedByDeficit l)) ∧
    find_undercited_publications (.ok [exPub1, exPub2, exPub3]) 2025 =
      [exPub1Aged, exPub2Aged] ∧
    print_undercited_publications
        (.ok (find_undercited_publications (.ok [exPub1, exPub2, exPub3]) 2025)) =
      .listing [exPub1Aged, exPub2Aged] ∧
    deficit exPub1Aged = 3 ∧ deficit exPub2Aged = 1 := by
  have hfound : find_undercited_publications (.ok [exPub1, exPub2, exPub3]) 2025 =
      [exPub1Aged, exPub2Aged] := by decide
  have hsorted : sortedByDeficit [exPub1Aged, exPub2Aged] = [exPub1Aged, exPub2Aged] := by
    apply List.mergeSort_of_sorted
    decide
  refine ⟨?_, ?_, ?_, hfound, ?_, by decide, by decide⟩
  · have h := List.sorted_mergeSort deficitDesc_trans deficitDesc_total l
    exact h.imp (fun hab => by simpa [deficitDesc] using hab)
  · exact List.mergeSort_perm l _
  · intro a b hd hs
    apply List.pair_sublist_mergeSort deficitDesc_trans deficitDesc_total _ hs
    simp [deficitDesc, hd]
  · rw [hfound]
    simp only [print_undercited_publications]
    rw [if_neg (by simp), hsorted]

/-- C2 witness: instantiation on a singleton age-annotated list. -/
theorem undercitation_render_order_witness :
    (sortedByDeficit [exPub1Aged]).Perm [exPub1Aged] :=
  (undercitation_render_order [exPub1Aged] (by decide)).2.1

/-- C3: the ranking view's ordering is sorted non-increasing by citation
count, is a permutation of the input collection, and breaks ties by the
original arrival order (stability: any equal-citation pair keeps its
relative order). -/
theorem ranking_view_sorted_perm_stable (pubs : List Pub) :
    (sortedByCitations pubs).Pairwise (fun a b => b.citations ≤ a.citations) ∧
    (sortedByCitations pubs).Perm pubs ∧
    (∀ a b : Pub, a.citations = b.citations → [a, b].Sublist pubs →
      [a, b].Sublist (sortedByCitations pubs)) := by
  refine ⟨?_, List.mergeSort_perm pubs _, ?_⟩
  · have h := List.sorted_mergeSort citationsDesc_trans citationsDesc_total pubs
    exact h.imp (fun hab => by simpa [citationsDesc] using hab)
  · intro a b hc hs
    apply List.pair_sublist_mergeSort citationsDesc_trans citationsDesc_total _ hs
    simp [citationsDesc, hc]

/-- C3 witness: instantiation on a concrete equal-citation pair. -/
theorem ranking_view_sorted_perm_stable_witness :
    [exPub1, exPub1].Sublist (sortedByCitations [exPub1, exPub1]) := by
  have h := (ranking_view_sorted_perm_stable [exPub1, exPub1]).2.2
      exPub1 exPub1 rfl (by decide)
  exact h

/-! ### Metrics extractor claims -/

/-- A page whose statistics table is present but empty, with six
numeric-value cells lying elsewhere in the document. -/
def pageOutsideCells : ProfilePage :=
  ⟨true, [("1", false), ("2", false), ("3", false), ("4", false),
    ("5", false), ("6", false)], none⟩

/-- A page whose statistics table holds only four numeric-value cells. -/
def pageFourCells : ProfilePage :=
  ⟨true, [("10", true), ("5", true), ("3", true), ("2", true)], none⟩

/-- C5 counterexample: on a page whose statistics container is present but
holds none of the six numeric-value cells (they all lie outside it),
`get_h_index` succeeds instead of failing with the parse error the claim
requires for fewer than 6 in-container cells — the code collects cells
document-wide. -/
theorem metrics_outside_container_counterexample :
    pageOutsideCells.hasMetricsTable = true ∧
    (tableStdCells pageOutsideCells).length = 0 ∧
    isErrorM (get_h_index pageOutsideCells) = false := by decide

/-- C5 amended: when the statistics container is present, `get_h_index`
collects the numeric-value cells of the WHOLE document; with fewer than 6
such cells it fails reporting the count found, and otherwise it assigns the
first six positionally in the fixed order. -/
theorem get_h_index_document_cells (page : ProfilePage)
    (htable : page.hasMetricsTable = true) :
    ((allStdCells page).length < 6 →
      get_h_index page =
        .error ("Expected 6 metric values, found " ++
          toString (allStdCells page).length)) ∧
    (∀ a b c d e f rest, allStdCells page = a :: b :: c :: d :: e :: f :: rest →
      get_h_index page =
        .ok ⟨a, b, c, d, e, f, page.profileName⟩) := by
  constructor
  · intro hlen
    unfold get_h_index
    rw [htable]
    simp only [Bool.not_true, Bool.false_eq_true, if_false]
    split
    · rename_i a b c d e f rest heq
      rw [heq] at hlen
      simp only [List.length_cons] at hlen
      omega
    · rfl
  · intro a b c d e f rest heq
    unfold get_h_index
    rw [htable, heq]
    simp only [Bool.not_true, Bool.false_eq_true, if_false]

/-- C5 witness: a page with only 4 numeric-value cells yields the parse
error reporting 4. -/
theorem get_h_index_document_cells_witness :
    get_h_index pageFourCells = .error "Expected 6 metric values, found 4" := by
  have h := (get_h_index_document_cells pageFourCells rfl).1 (by decide)
  exact h.trans (by decide)

/-! ### Citation extraction claims -/

/-- A row whose citation indicator text is a negative integer literal. -/
def rowNegCitations : Row := ⟨none, [], none, some "-3"⟩

/-- A row with ordinary fields and citation text "7". -/
def rowDigitCitations : Row := ⟨some "T", ["A"], some "2020", some "7"⟩

/-- C6 counterexample: Python `int` parses signed literals, so a row whose
citation text is "-3" is extracted with citation count -3, violating the
claimed unconditional non-negativity. -/
theorem extract_citations_counterexample :
    ¬ (∀ p ∈ [rowNegCitations].map extractPub, 0 ≤ p.citations) := by decide

/-- C6 amended: every record produced by the publication extractor has a
non-negative citation count provided no row's citation text parses as a
negative integer; the count defaults to 0 whenever the citation indicator
is absent or its text is unparsable. -/
theorem extract_citations_nonneg (rows : List Row)
    (h : ∀ r ∈ rows, ∀ t z, r.citationsText = some t → pyInt t = some z → 0 ≤ z) :
    (∀ p ∈ rows.map extractPub, 0 ≤ p.citations) ∧
    (∀ r ∈ rows, r.citationsText = none → (extractPub r).citations = 0) ∧
    (∀ r ∈ rows, ∀ t, r.citationsText = some t → pyInt t = none →
      (extractPub r).citations = 0) := by
  refine ⟨?_, ?_, ?_⟩
  · intro p hp
    rw [List.mem_map] at hp
    obtain ⟨r, hr, rfl⟩ := hp
    simp only [extractPub]
    cases hcit : r.citationsText with
    | none => simp
    | some t =>
      dsimp only
      by_cases ht : t = ""
      · rw [if_pos ht]
      · rw [if_neg ht]
        cases hz : pyInt t with
        | none => simp
        | some z =>
          simp only [Option.getD_some]
          exact h r hr t z hcit hz
  · intro r _ hnone
    simp [extractPub, hnone]
  · intro r _ t ht hnone
    simp only [extractPub, ht, hnone]
    split <;> simp

/-- C6 witness: a row with digit citation text "7" is extracted with a
non-negative count. -/
theorem extract_citations_nonneg_witness :
    (0 : Int) ≤ (extractPub rowDigitCitations).citations := by
  refine (extract_citations_nonneg [rowDigitCitations] ?_).1 _ (by simp)
  intro r hr t z ht hz
  simp only [List.mem_singleton] at hr
  subst hr
  rw [show rowDigitCitations.citationsText = some "7" from rfl] at ht
  obtain rfl := Option.some.inj ht
  rw [show pyInt "7" = some 7 from by decide] at hz
  obtain rfl := Option.some.inj hz
  decide

/-! ### Summary view claims -/

/-- A publication with zero citations, used as a counterexample input. -/
def zeroCitPub : Pub := ⟨"Z", "Z", "Z", "2020", 0, none⟩

/-- C7: the "most cited" figure of the summary block is the citation count
of the positionally first publication of the collection it is given, and
this is not in general the true maximum citation count. -/
theorem most_cited_is_first_element :
    (∀ (p : Pub) (l : List Pub), mostCitedFigure (p :: l) = some p.citations) ∧
    ¬ (∀ pubs : List Pub, pubs ≠ [] → mostCitedFigure pubs = maxCitations pubs) := by
  constructor
  · intro p l
    rfl
  · intro h
    exact absurd (h [exPub2, exPub1] (by simp)) (by decide)

/-- C7 witness: on a concrete collection the figure is the first element's
count. -/
theorem most_cited_is_first_element_witness :
    mostCitedFigure [exPub2, exPub1] = some exPub2.citations :=
  most_cited_is_first_element.1 exPub2 [exPub1]

/-- C8 counterexample: a single publication with zero citations has average
0 while the publication count is 1, refuting "average equals 0 exactly when
the count is 0". -/
theorem avg_citations_iff_counterexample :
    ¬ (avgCitations [zeroCitPub] = 0 ↔ ([zeroCitPub] : List Pub).length = 0) := by
  have h1 : avgCitations [zeroCitPub] = 0 := by
    simp [avgCitations, totalCitations, zeroCitPub]
  intro h
  have h2 := h.mp h1
  simp at h2

/-- C8 amended: the average equals the citation sum divided by the count
whenever the collection is non-empty, and is 0 (by the guard, without a
division-by-zero fault) whenever the collection, equivalently the count, is
empty; it can also be 0 for non-empty collections with zero total. -/
theorem avg_citations_formula (pubs : List Pub) :
    (pubs ≠ [] → avgCitations pubs = (totalCitations pubs : Rat) / (pubs.length : Rat)) ∧
    (pubs = [] → avgCitations pubs = 0) ∧
    (pubs.length = 0 → avgCitations pubs = 0) := by
  refine ⟨fun h => ?_, fun h => ?_, fun h => ?_⟩
  · rw [avgCitations, if_neg h]
  · rw [avgCitations, if_pos h]
  · rw [List.length_eq_zero] at h
    rw [avgCitations, if_pos h]

/-- C8 witness: the guarded empty case and a concrete non-empty case. -/
theorem avg_citations_formula_witness :
    avgCitations [] = 0 ∧
    avgCitations [zeroCitPub] =
      (totalCitations [zeroCitPub] : Rat) / (([zeroCitPub] : List Pub).length : Rat) :=
  ⟨(avg_citations_formula []).2.1 rfl, (avg_citations_formula [zeroCitPub]).1 (by simp)⟩

/-! ### Error-path rendering claims -/

/-- C9 counterexample: the undercitation renderer, handed an error-bearing
result, does not print a diagnostic — the non-empty error dict passes its
only guard (the falsiness test) and the attempted sort faults. -/
theorem undercited_renderer_error_counterexample :
    print_undercited_publications (.error "boom") = .typeFault ∧
    isDiagnostic (print_undercited_publications (.error "boom")) = false := by
  decide

/-- C9 amended: of the two renderers, only the ranking renderer detects an
error-bearing result and prints a one-line diagnostic; the undercitation
renderer performs no such check and, given a (necessarily non-empty) error
result, proceeds to iterate it inside `sorted`, raising a `TypeError`. -/
theorem renderers_on_error_result (msg : String) :
    print_publications_sorted (.error msg) = .diagnostic ("Error: " ++ msg) ∧
    print_undercited_publications (.error msg) = .typeFault :=
  ⟨rfl, rfl⟩

/-- C9 witness: instantiation at a concrete message. -/
theorem renderers_on_error_result_witness :
    print_publications_sorted (.error "boom") = .diagnostic "Error: boom" ∧
    print_undercited_publications (.error "boom") = .typeFault :=
  ⟨(renderers_on_error_result "boom").1.trans (by decide),
    (renderers_on_error_result "boom").2⟩

/-- C10: on an error-tagged input the undercitation analysis returns the
empty list, so the undercitation view downstream reports "no undercited
publications found" rather than a diagnostic. -/
theorem error_input_gives_empty_undercited (msg : String) (cy : Int) :
    find_undercited_publications (.error msg) cy = [] ∧
    print_undercited_publications
        (.ok (find_undercited_publications (.error msg) cy)) = .noneFound :=
  ⟨rfl, rfl⟩

/-- C10 witness: instantiation at a concrete message and year. -/
theorem error_input_gives_empty_undercited_witness :
    find_undercited_publications (.error "boom") 2025 = [] ∧
    print_undercited_publications
        (.ok (find_undercited_publications (.error "boom") 2025)) = .noneFound :=
  error_input_gives_empty_undercited "boom" 2025

/-! ### Pagination driver claims -/

/-- Characterization of the pagination loop from any start offset: if page
`m` (counting pages from the current offset, each 100 apart) is the first
page with fewer than 100 rows, then with more than `m` units of fuel the
loop returns the concatenation, in page order then row order, of the
extracted rows of pages `0..m`, after exactly `m + 1` fetches. -/
theorem scrapeLoop_first_short (fetchRows : Nat → List Row) :
    ∀ (m fuel start : Nat),
      (fetchRows (start + 100 * m)).length < 100 →
      (∀ i, i < m → 100 ≤ (fetchRows (start + 100 * i)).length) →
      m < fuel →
      scrapeLoop fetchRows fuel start =
        some (((List.range (m + 1)).map
          (fun i => (fetchRows (start + 100 * i)).map extractPub)).flatten, m + 1) := by
  intro m
  induction m with
  | zero =>
    intro fuel start hshort _ hfuel
    cases fuel with
    | zero => omega
    | succ f =>
      simp only [Nat.mul_zero, Nat.add_zero] at hshort
      simp only [scrapeLoop]
      by_cases he : fetchRows start = []
      · rw [if_pos he]
        simp [List.range_succ, he]
      · rw [if_neg he, if_pos hshort]
        simp [List.range_succ]
  | succ m ih =>
    intro fuel start hshort hfull hfuel
    cases fuel with
    | zero => omega
    | succ f =>
      have hfirst : 100 ≤ (fetchRows start).length := by
        have h0 := hfull 0 (Nat.succ_pos m)
        simpa using h0
      have hne : fetchRows start ≠ [] := by
        intro h
        rw [h] at hfirst
        simp at hfirst
      have hshort2 : (fetchRows (start + 100 + 100 * m)).length < 100 := by
        have h : start + 100 + 100 * m = start + 100 * (m + 1) := by omega
        rw [h]
        exact hshort
      have hfull2 : ∀ i, i < m → 100 ≤ (fetchRows (start + 100 + 100 * i)).length := by
        intro i hi
        have h : start + 100 + 100 * i = start + 100 * (i + 1) := by omega
        rw [h]
        exact hfull (i + 1) (by omega)
      have hrec := ih f (start + 100) hshort2 hfull2 (by omega)
      simp only [scrapeLoop]
      rw [if_neg hne, if_neg (by omega), hrec]
      have harg : (fun i => (fetchRows (start + 100 + 100 * i)).map extractPub) =
          (fun i => (fetchRows (start + 100 * Nat.succ i)).map extractPub) := by
        funext i
        have h : start + 100 + 100 * i = start + 100 * Nat.succ i := by omega
        rw [h]
      rw [harg]
      simp only [List.range_succ_eq_map, List.map_cons, List.map_map, List.flatten_cons,
        Nat.mul_zero, Nat.add_zero]
      have hcomp : ((fun i => List.map extractPub (fetchRows (start + 100 * i.succ))) ∘ Nat.succ) =
          ((fun i => List.map extractPub (fetchRows (start + 100 * i))) ∘ Nat.succ ∘ Nat.succ) := by
        funext i
        rfl
      rw [hcomp]

/-- C4: for every fetcher whose page at offset `100 * m` is the first to
yield fewer than 100 rows, the pagination driver terminates (returns a
value for every sufficient fuel bound, independent of the bound): it fetches
pages at offsets 0, 100, ..., 100 * m — advancing by exactly the page size
after each page — makes exactly `m + 1` fetches, stops at the first page
with zero rows or fewer than 100 rows, and returns the concatenation of the
extracted page results in page order then row order. -/
theorem pagination_driver_concatenates (fetchRows : Nat → List Row) (m fuel : Nat)
    (hshort : (fetchRows (100 * m)).length < 100)
    (hfull : ∀ i, i < m → 100 ≤ (fetchRows (100 * i)).length)
    (hfuel : m < fuel) :
    get_publications fetchRows fuel =
      some (((List.range (m + 1)).map
        (fun i => (fetchRows (100 * i)).map extractPub)).flatten, m + 1) := by
  have h := scrapeLoop_first_short fetchRows m fuel 0 (by simpa using hshort)
    (by intro i hi; simpa using hfull i hi) hfuel
  simpa [get_publications] using h

/-- One publication row used by the mock fetcher. -/
def mockRow : Row := ⟨some "T", ["A"], some "2020", some "3"⟩

/-- A mock fetcher returning pages of sizes 100, 100, 37 for the first
three offsets. -/
def mockFetch (start : Nat) : List Row :=
  if start = 0 then List.replicate 100 mockRow
  else if start = 100 then List.replicate 100 mockRow
  else if start = 200 then List.replicate 37 mockRow
  else []

/-- C4 witness: with successive page sizes [100, 100, 37] the driver
returns the 237 concatenated rows after exactly 3 fetches, and with an
empty first page it returns zero rows after a single fetch. -/
theorem pagination_driver_concatenates_witness :
    get_publications mockFetch 10 =
      some (((List.range 3).map
        (fun i => (mockFetch (100 * i)).map extractPub)).flatten, 3) ∧
    (((List.range 3).map (fun i => (mockFetch (100 * i)).map extractPub)).flatten).length = 237 ∧
    get_publications (fun _ => []) 10 = some ([], 1) := by
  refine ⟨?_, ?_, rfl⟩
  · exact pagination_driver_concatenates mockFetch 2 10 (by simp [mockFetch])
      (by intro i hi; interval_cases i <;> simp [mockFetch]) (by omega)
  · have h0 : (mockFetch (100 * 0)).length = 100 := by
      norm_num [mockFetch]
    have h1 : (mockFetch (100 * 1)).length = 100 := by
      norm_num [mockFetch]
    have h2 : (mockFetch (100 * 2)).length = 37 := by
      norm_num [mockFetch]
    simp only [List.range_succ, List.range_zero, List.map_append, List.map_cons,
      List.map_nil, List.nil_append, List.flatten_append, List.flatten_cons,
      List.flatten_nil, List.length_append, List.length_map, List.length_nil,
      List.append_nil, h0, h1, h2]
